import Mathlib

/- A shallow embedding of the trading engine in src/main.py: the indicator
   computations of StrategyEngine, its signal policy, and the position
   ledger of KrakenTradingBot.  Prices, volumes and times are rationals.
   The two datetime.now() calls inside one websocket callback (one in
   generate_signal, one in handle_signal) are modelled as a single
   instant `now`; the order-gateway result is an explicit parameter
   (`some txid` for a successful placement, `none` for failure). -/

namespace TradingBot

structure Candle where
  timestamp : ℚ
  open_ : ℚ
  high : ℚ
  low : ℚ
  close : ℚ
  volume : ℚ
deriving DecidableEq

/-- Mean of a list of rationals, as np.mean of a nonempty array. -/
def listMean (l : List ℚ) : ℚ := l.sum / l.length

/-- Python slice l[-n:], for n ≥ 1. -/
def takeLast {α : Type} (n : ℕ) (l : List α) : List α := l.drop (l.length - n)

/-- np.diff applied to the price list: consecutive differences. -/
def diffs : List ℚ → List ℚ
  | a :: b :: rest => (b - a) :: diffs (b :: rest)
  | _ => []

/-- np.where(deltas > 0, deltas, 0) in calculate_rsi. -/
def rsiGains (prices : List ℚ) : List ℚ :=
  (diffs prices).map fun d => if 0 < d then d else 0

/-- np.where(deltas < 0, -deltas, 0) in calculate_rsi. -/
def rsiLosses (prices : List ℚ) : List ℚ :=
  (diffs prices).map fun d => if d < 0 then -d else 0

/-- np.mean(gains[-period:]) in calculate_rsi. -/
def avgGain (period : ℕ) (prices : List ℚ) : ℚ :=
  listMean (takeLast period (rsiGains prices))

/-- np.mean(losses[-period:]) in calculate_rsi. -/
def avgLoss (period : ℕ) (prices : List ℚ) : ℚ :=
  listMean (takeLast period (rsiLosses prices))

/-- StrategyEngine.calculate_rsi. -/
def calculate_rsi (period : ℕ) (prices : List ℚ) : ℚ :=
  if prices.length < period + 1 then 50
  else if avgLoss period prices = 0 then 100
  else 100 - 100 / (1 + avgGain period prices / avgLoss period prices)

/-- True ranges of consecutive candle pairs, as the loop in calculate_trauma:
for each candle after the first, max(high - low, |high - prevClose|, |low - prevClose|). -/
def trueRanges : List Candle → List ℚ
  | a :: b :: rest =>
      max (b.high - b.low) (max |b.high - a.close| |b.low - a.close|) :: trueRanges (b :: rest)
  | _ => []

/-- np.mean(closes) over the trailing window in calculate_trauma. -/
def traumaSMA (period : ℕ) (data : List Candle) : ℚ :=
  listMean ((takeLast period data).map Candle.close)

/-- np.mean(true_ranges) over the trailing window in calculate_trauma. -/
def traumaATR (period : ℕ) (data : List Candle) : ℚ :=
  listMean (trueRanges (takeLast period data))

/-- StrategyEngine.calculate_trauma. -/
def calculate_trauma (period : ℕ) (data : List Candle) : ℚ :=
  if data.length < period then
    match data.getLast? with
    | some c => c.close
    | none => 0
  else if trueRanges (takeLast period data) = [] then traumaSMA period data
  else traumaSMA period data - traumaATR period data * (1/2)

/-- Python max over a nonempty list, with a default for the empty case. -/
def listMax (dflt : ℚ) : List ℚ → ℚ
  | [] => dflt
  | h :: t => t.foldl max h

/-- Python min over a nonempty list, with a default for the empty case. -/
def listMin (dflt : ℚ) : List ℚ → ℚ
  | [] => dflt
  | h :: t => t.foldl min h

/-- The avg_volume = np.mean(volumes[:-1]) quantity of detect_breakout. -/
def trailingAvgVolume (lookback : ℕ) (data : List Candle) : ℚ :=
  listMean (((takeLast lookback data).map Candle.volume).dropLast)

/-- StrategyEngine.detect_breakout; the volume-surge factor 1.2 is 6/5. -/
def detect_breakout (lookback : ℕ) (data : List Candle) : ℤ :=
  if data.length < lookback then 0
  else
    match data.getLast? with
    | none => 0
    | some current =>
      let recent := takeLast lookback data
      let highs := recent.dropLast.map Candle.high
      let lows := recent.dropLast.map Candle.low
      let volumes := recent.map Candle.volume
      let resistance := listMax current.high highs
      let support := listMin current.low lows
      let avg_volume := if 1 < volumes.length then listMean volumes.dropLast else volumes.headD 0
      if current.close > resistance ∧ current.volume > avg_volume * (6/5) then 1
      else if current.close < support ∧ current.volume > avg_volume * (6/5) then (-1)
      else 0

/-- The four non-null signal strings of generate_signal. -/
inductive Sig where
  | buy | sell | exitLong | exitShort
deriving DecidableEq

/-- Which branch of generate_signal produced the reason string; the code
formats these as strings, modelled here by the branch identity. -/
inductive Reason where
  | notEnoughData
  | bullishBreakout
  | bearishBreakout
  | rsiOverbought
  | rsiOversold
  | empty
deriving DecidableEq

/-- The mutable fields of StrategyEngine together with its parameters. -/
structure StrategyState where
  rsi_period : ℕ
  rsi_overbought : ℚ
  rsi_oversold : ℚ
  trauma_period : ℕ
  lookback_period : ℕ
  ohlc_data : List Candle
  last_signal : Option Sig
  last_signal_time : Option ℚ
deriving DecidableEq

/-- An incoming ohlc dict as delivered to add_ohlc_data. -/
structure OhlcMsg where
  time : ℚ
  open_ : ℚ
  high : ℚ
  low : ℚ
  close : ℚ
  volume : ℚ
deriving DecidableEq

/-- The dict appended in add_ohlc_data, with timestamp taken from the message. -/
def candleOfMsg (d : OhlcMsg) : Candle :=
  { timestamp := d.time, open_ := d.open_, high := d.high, low := d.low,
    close := d.close, volume := d.volume }

/-- StrategyEngine.add_ohlc_data: append to the deque; a deque with
maxlen = lookback_period evicts from the left beyond capacity. -/
def add_ohlc_data (s : StrategyState) (d : OhlcMsg) : StrategyState :=
  let w := s.ohlc_data ++ [candleOfMsg d]
  { s with ohlc_data := if s.lookback_period < w.length then w.drop (w.length - s.lookback_period) else w }

/-- StrategyEngine.generate_signal at clock instant `now` (the code reads
datetime.now() when it stores last_signal_time).  Returns the
(signal, reason) pair and the updated engine state. -/
def generate_signal (s : StrategyState) (now : ℚ) : (Option Sig × Reason) × StrategyState :=
  if s.ohlc_data.length < max s.rsi_period s.trauma_period + 1 then
    ((none, Reason.notEnoughData), s)
  else
    let data_list := s.ohlc_data
    let current_price := (data_list.getLast?.map Candle.close).getD 0
    let closes := data_list.map Candle.close
    let rsi := calculate_rsi s.rsi_period closes
    let trauma := calculate_trauma s.trauma_period data_list
    let breakout := detect_breakout 20 data_list
    let sr : Option Sig × Reason :=
      if current_price > trauma ∧ breakout = 1 then (some Sig.buy, Reason.bullishBreakout)
      else if current_price < trauma ∧ breakout = -1 then (some Sig.sell, Reason.bearishBreakout)
      else if s.last_signal = some Sig.buy ∧ rsi > s.rsi_overbought then
        (some Sig.exitLong, Reason.rsiOverbought)
      else if s.last_signal = some Sig.sell ∧ rsi < s.rsi_oversold then
        (some Sig.exitShort, Reason.rsiOversold)
      else (none, Reason.empty)
    let s' :=
      match sr.1 with
      | some Sig.buy => { s with last_signal := some Sig.buy, last_signal_time := some now }
      | some Sig.sell => { s with last_signal := some Sig.sell, last_signal_time := some now }
      | some Sig.exitLong => { s with last_signal := none, last_signal_time := none }
      | some Sig.exitShort => { s with last_signal := none, last_signal_time := none }
      | none => s
    (sr, s')

/-- PositionType of main.py; NONE is never stored inside a Position. -/
inductive PositionType where
  | NONE | LONG | SHORT
deriving DecidableEq

/-- The Position dataclass; order ids are modelled as naturals. -/
structure Position where
  entry_time : ℚ
  entry_price : ℚ
  position_type : PositionType
  quantity : ℚ
  order_id : ℕ
deriving DecidableEq

/-- A closed-trade record as appended by close_position. -/
structure Trade where
  entry_time : ℚ
  exit_time : ℚ
  entry_price : ℚ
  exit_price : ℚ
  position_type : PositionType
  quantity : ℚ
  pnl : ℚ
  reason : Reason
  entry_order_id : ℕ
  exit_order_id : ℕ
deriving DecidableEq

/-- The mutable fields of KrakenTradingBot that the ledger claims touch. -/
structure BotState where
  strategy : StrategyState
  current_position : Option Position
  trade_size : ℚ
  min_time_between_signals : ℚ
  trades : List Trade
  total_pnl : ℚ
deriving DecidableEq

/-- The guard at the top of handle_signal: last_signal_time is set and the
elapsed time since it is below min_time_between_signals. -/
def debounced (b : BotState) (now : ℚ) : Bool :=
  match b.strategy.last_signal_time with
  | some t => decide (now - t < b.min_time_between_signals)
  | none => false

/-- KrakenTradingBot.open_long_position; gwRes is the gateway result
(some txid on success, none on failure). -/
def open_long_position (b : BotState) (price : ℚ) (now : ℚ) (gwRes : Option ℕ) : BotState :=
  match gwRes with
  | some txid =>
    { b with current_position := some {
        entry_time := now, entry_price := price, position_type := PositionType.LONG,
        quantity := b.trade_size, order_id := txid } }
  | none => b

/-- KrakenTradingBot.open_short_position. -/
def open_short_position (b : BotState) (price : ℚ) (now : ℚ) (gwRes : Option ℕ) : BotState :=
  match gwRes with
  | some txid =>
    { b with current_position := some {
        entry_time := now, entry_price := price, position_type := PositionType.SHORT,
        quantity := b.trade_size, order_id := txid } }
  | none => b

/-- KrakenTradingBot.close_position. -/
def close_position (b : BotState) (price : ℚ) (now : ℚ) (reason : Reason) (gwRes : Option ℕ) : BotState :=
  match b.current_position with
  | none => b
  | some p =>
    match gwRes with
    | none => b
    | some txid =>
      let pnl := if p.position_type = PositionType.LONG then (price - p.entry_price) * p.quantity
                 else (p.entry_price - price) * p.quantity
      let t : Trade :=
        { entry_time := p.entry_time, exit_time := now, entry_price := p.entry_price,
          exit_price := price, position_type := p.position_type, quantity := p.quantity,
          pnl := pnl, reason := reason, entry_order_id := p.order_id, exit_order_id := txid }
      { b with trades := b.trades ++ [t], total_pnl := b.total_pnl + pnl,
               current_position := none }

/-- KrakenTradingBot.handle_signal at clock instant `now`. -/
def handle_signal (b : BotState) (signal : Sig) (reason : Reason) (current_price : ℚ)
    (now : ℚ) (gwRes : Option ℕ) : BotState :=
  if debounced b now then b
  else
    match signal, b.current_position with
    | Sig.buy, none => open_long_position b current_price now gwRes
    | Sig.sell, none => open_short_position b current_price now gwRes
    | Sig.exitLong, some p =>
        if p.position_type = PositionType.LONG then close_position b current_price now reason gwRes
        else b
    | Sig.exitShort, some p =>
        if p.position_type = PositionType.SHORT then close_position b current_price now reason gwRes
        else b
    | _, _ => b

/-- KrakenTradingBot.websocket_callback on an ohlc message: ingest, derive
a signal, and dispatch it when non-null. -/
def websocket_callback (b : BotState) (d : OhlcMsg) (now : ℚ) (gwRes : Option ℕ) : BotState :=
  let strat1 := add_ohlc_data b.strategy d
  let gs := generate_signal strat1 now
  let b1 := { b with strategy := gs.2 }
  match gs.1.1 with
  | some sig => handle_signal b1 sig gs.1.2 d.close now gwRes
  | none => b1

/-- Run the callback over a feed of (message, clock instant, gateway result). -/
def runFeed (b : BotState) : List (OhlcMsg × ℚ × Option ℕ) → BotState
  | [] => b
  | (d, now, gw) :: rest => runFeed (websocket_callback b d now gw) rest

/-- StrategyEngine() with its default parameters. -/
def initStrategy : StrategyState :=
  { rsi_period := 14, rsi_overbought := 70, rsi_oversold := 30, trauma_period := 20,
    lookback_period := 100, ohlc_data := [], last_signal := none, last_signal_time := none }

/-- KrakenTradingBot() with its default parameters (TRADE_SIZE 0.01,
min_time_between_signals 300). -/
def initBot : BotState :=
  { strategy := initStrategy, current_position := none, trade_size := 1/100,
    min_time_between_signals := 300, trades := [], total_pnl := 0 }

/-- The numeric fields of the dict built by get_performance_summary;
win_rate_pct is the percentage the code formats as a string. -/
structure PerfSummary where
  total_trades : ℕ
  profitable_trades : ℕ
  losing_trades : ℕ
  win_rate_pct : ℚ
  total_pnl : ℚ
  average_pnl : ℚ
  best_trade : ℚ
  worst_trade : ℚ
deriving DecidableEq

/-- KrakenTradingBot.get_performance_summary; the no-trades message branch
is modelled as none. -/
def get_performance_summary (b : BotState) : Option PerfSummary :=
  if b.trades = [] then none
  else
    let profitable := b.trades.filter fun t => decide (0 < t.pnl)
    some
      { total_trades := b.trades.length
        profitable_trades := profitable.length
        losing_trades := b.trades.length - profitable.length
        win_rate_pct := (profitable.length : ℚ) / (b.trades.length : ℚ) * 100
        total_pnl := b.total_pnl
        average_pnl := listMean (b.trades.map Trade.pnl)
        best_trade := listMax 0 (b.trades.map Trade.pnl)
        worst_trade := listMin 0 (b.trades.map Trade.pnl) }

/- Supporting lemmas. -/

theorem length_diffs : ∀ (l : List ℚ), (diffs l).length = l.length - 1
  | [] => rfl
  | [_] => rfl
  | a :: b :: rest => by
      have ih := length_diffs (b :: rest)
      simp only [diffs, List.length_cons] at ih ⊢
      omega

theorem length_trueRanges : ∀ (l : List Candle), (trueRanges l).length = l.length - 1
  | [] => rfl
  | [_] => rfl
  | a :: b :: rest => by
      have ih := length_trueRanges (b :: rest)
      simp only [trueRanges, List.length_cons] at ih ⊢
      omega

theorem length_takeLast {α : Type} (n : ℕ) (l : List α) :
    (takeLast n l).length = min n l.length := by
  simp only [takeLast, List.length_drop]
  omega

theorem mem_takeLast {α : Type} {n : ℕ} {l : List α} {a : α}
    (h : a ∈ takeLast n l) : a ∈ l :=
  List.drop_subset _ _ h

theorem list_sum_eq_zero_iff_of_nonneg :
    ∀ (l : List ℚ), (∀ x ∈ l, 0 ≤ x) → (l.sum = 0 ↔ ∀ x ∈ l, x = 0)
  | [] => by simp
  | a :: t => by
      intro h
      have ha : 0 ≤ a := h a (List.mem_cons_self a t)
      have htn : ∀ x ∈ t, 0 ≤ x := fun x hx => h x (List.mem_cons_of_mem a hx)
      have hts : 0 ≤ t.sum := List.sum_nonneg htn
      have iht := list_sum_eq_zero_iff_of_nonneg t htn
      simp only [List.sum_cons, List.mem_cons]
      constructor
      · intro hs
        have ha0 : a = 0 := by linarith [iht, hs]
        have ht0 : t.sum = 0 := by linarith
        intro x hx
        rcases hx with rfl | hx
        · exact ha0
        · exact (iht.mp ht0) x hx
      · intro hz
        have ha0 : a = 0 := hz a (Or.inl rfl)
        have ht0 : t.sum = 0 := iht.mpr fun x hx => hz x (Or.inr hx)
        rw [ha0, ht0, add_zero]

theorem listMean_nonneg {l : List ℚ} (h : ∀ x ∈ l, 0 ≤ x) : 0 ≤ listMean l :=
  div_nonneg (List.sum_nonneg h) (Nat.cast_nonneg _)

theorem listMean_eq_zero_iff {l : List ℚ} (hne : l ≠ []) (h : ∀ x ∈ l, 0 ≤ x) :
    listMean l = 0 ↔ ∀ x ∈ l, x = 0 := by
  have hlen : (0 : ℚ) < l.length := by
    have : l.length ≠ 0 := fun hc => hne (List.length_eq_zero.mp hc)
    exact_mod_cast Nat.pos_of_ne_zero this
  unfold listMean
  rw [div_eq_zero_iff]
  constructor
  · intro hc
    rcases hc with hc | hc
    · exact (list_sum_eq_zero_iff_of_nonneg l h).mp hc
    · exact absurd hc (by positivity)
  · intro hz
    exact Or.inl ((list_sum_eq_zero_iff_of_nonneg l h).mpr hz)

theorem takeLast_map {α β : Type} (f : α → β) (n : ℕ) (l : List α) :
    takeLast n (l.map f) = (takeLast n l).map f := by
  simp only [takeLast, List.length_map]
  exact (List.map_drop f l (l.length - n)).symm

theorem rsiLosses_entry_nonneg {prices : List ℚ} {x : ℚ} (h : x ∈ rsiLosses prices) :
    0 ≤ x := by
  rcases List.mem_map.mp h with ⟨d, _, rfl⟩
  by_cases hd : d < 0 <;> simp [hd]
  linarith

theorem rsiGains_entry_nonneg {prices : List ℚ} {x : ℚ} (h : x ∈ rsiGains prices) :
    0 ≤ x := by
  rcases List.mem_map.mp h with ⟨d, _, rfl⟩
  by_cases hd : 0 < d <;> simp [hd]
  linarith

theorem avgGain_nonneg (period : ℕ) (prices : List ℚ) : 0 ≤ avgGain period prices :=
  listMean_nonneg fun _ hx => rsiGains_entry_nonneg (mem_takeLast hx)

theorem avgLoss_nonneg (period : ℕ) (prices : List ℚ) : 0 ≤ avgLoss period prices :=
  listMean_nonneg fun _ hx => rsiLosses_entry_nonneg (mem_takeLast hx)

theorem avgLoss_eq_zero_iff (period : ℕ) (prices : List ℚ)
    (hp : 1 ≤ period) (hl : period + 1 ≤ prices.length) :
    avgLoss period prices = 0 ↔ ∀ d ∈ takeLast period (diffs prices), 0 ≤ d := by
  have hmap : takeLast period (rsiLosses prices) =
      (takeLast period (diffs prices)).map fun d => if d < 0 then -d else 0 :=
    takeLast_map _ period (diffs prices)
  have hlen : (takeLast period (diffs prices)).length = period := by
    rw [length_takeLast, length_diffs]; omega
  have hne : takeLast period (rsiLosses prices) ≠ [] := by
    rw [hmap]
    intro hc
    have := congrArg List.length hc
    simp [hlen] at this
    omega
  have hnn : ∀ x ∈ takeLast period (rsiLosses prices), 0 ≤ x :=
    fun x hx => rsiLosses_entry_nonneg (mem_takeLast hx)
  unfold avgLoss
  rw [listMean_eq_zero_iff hne hnn, hmap]
  constructor
  · intro hz d hd
    have := hz _ (List.mem_map.mpr ⟨d, hd, rfl⟩)
    by_cases hdneg : d < 0
    · simp [hdneg] at this; linarith
    · linarith [not_lt.mp hdneg]
  · intro hnd x hx
    rcases List.mem_map.mp hx with ⟨d, hd, rfl⟩
    have := hnd d hd
    simp [not_lt.mpr this]

/-- C2 counterexample: on a constant price window the code returns RSI = 100
although no close-to-close delta is strictly positive, so saturation is not
tied to the existence of a strictly positive delta as the claim states. -/
theorem rsi_constant_window_counterexample :
    calculate_rsi 14 (List.replicate 15 (100 : ℚ)) = 100 ∧
    ¬ ∃ d ∈ takeLast 14 (diffs (List.replicate 15 (100 : ℚ))), 0 < d :=
  of_decide_eq_true (by with_unfolding_all rfl)

/-- C2 (amended): with at least rsiPeriod + 1 closes, calculate_rsi lands in
[0, 100]; it is exactly 100 precisely when every one of the last rsiPeriod
deltas is ≥ 0 (equivalently the average loss is 0, with no requirement of a
strictly positive delta), and on nonzero average loss it returns
100 - 100 / (1 + avgGain / avgLoss). -/
theorem rsi_bounds_and_saturation (period : ℕ) (prices : List ℚ)
    (hp : 1 ≤ period) (hl : period + 1 ≤ prices.length) :
    0 ≤ calculate_rsi period prices ∧
    calculate_rsi period prices ≤ 100 ∧
    (calculate_rsi period prices = 100 ↔ ∀ d ∈ takeLast period (diffs prices), 0 ≤ d) ∧
    (avgLoss period prices ≠ 0 →
      calculate_rsi period prices =
        100 - 100 / (1 + avgGain period prices / avgLoss period prices)) := by
  have hnot : ¬ prices.length < period + 1 := by omega
  have hiff := avgLoss_eq_zero_iff period prices hp hl
  unfold calculate_rsi
  rw [if_neg hnot]
  by_cases hz : avgLoss period prices = 0
  · rw [if_pos hz]
    refine ⟨by norm_num, le_refl _, ?_, fun hc => absurd hz hc⟩
    exact iff_of_true rfl (hiff.mp hz)
  · rw [if_neg hz]
    have hLpos : 0 < avgLoss period prices := lt_of_le_of_ne (avgLoss_nonneg period prices) (Ne.symm hz)
    have hA : 0 ≤ avgGain period prices := avgGain_nonneg period prices
    have hrs : 0 ≤ avgGain period prices / avgLoss period prices := div_nonneg hA (le_of_lt hLpos)
    have hden : (1 : ℚ) ≤ 1 + avgGain period prices / avgLoss period prices := by linarith
    have hq1 : (100 : ℚ) / (1 + avgGain period prices / avgLoss period prices) ≤ 100 :=
      div_le_self (by norm_num) hden
    have hq0 : (0 : ℚ) < 100 / (1 + avgGain period prices / avgLoss period prices) :=
      div_pos (by norm_num) (by linarith)
    refine ⟨by linarith, by linarith, ?_, fun _ => rfl⟩
    exact iff_of_false (by intro hc; linarith [hc]) fun hc => hz (hiff.mpr hc)

/-- C2 witness input: 15 closes alternating up 2 / down 1. -/
def rsiWitnessPrices : List ℚ :=
  [100, 102, 101, 103, 102, 104, 103, 105, 104, 106, 105, 107, 106, 108, 107]

/-- C2 witness: the amended theorem applied at rsiPeriod = 14 on a concrete
window of 15 closes. -/
theorem rsi_bounds_and_saturation_witness :
    0 ≤ calculate_rsi 14 rsiWitnessPrices ∧
    calculate_rsi 14 rsiWitnessPrices ≤ 100 ∧
    (calculate_rsi 14 rsiWitnessPrices = 100 ↔
      ∀ d ∈ takeLast 14 (diffs rsiWitnessPrices), 0 ≤ d) ∧
    (avgLoss 14 rsiWitnessPrices ≠ 0 →
      calculate_rsi 14 rsiWitnessPrices =
        100 - 100 / (1 + avgGain 14 rsiWitnessPrices / avgLoss 14 rsiWitnessPrices)) :=
  rsi_bounds_and_saturation 14 rsiWitnessPrices (by norm_num) (by decide)

/-- C7: with at least traumaPeriod candles and traumaPeriod ≥ 2 the trauma
line is the SMA of the trailing closes minus half the average true range of
the trailing window; with traumaPeriod = 1 no candle pair is available for a
true range and the line collapses to the plain SMA. -/
theorem trauma_is_sma_minus_half_atr (period : ℕ) (data : List Candle)
    (_hp : 1 ≤ period) (hl : period ≤ data.length) :
    (2 ≤ period → calculate_trauma period data =
      traumaSMA period data - traumaATR period data * (1/2)) ∧
    (period = 1 → calculate_trauma period data = traumaSMA period data) := by
  have hnot : ¬ data.length < period := by omega
  have hlen : (takeLast period data).length = period := by
    rw [length_takeLast]; omega
  have htr : (trueRanges (takeLast period data)).length = period - 1 := by
    rw [length_trueRanges, hlen]
  constructor
  · intro h2
    have hne : trueRanges (takeLast period data) ≠ [] := by
      intro hc
      have := congrArg List.length hc
      rw [htr] at this
      simp at this
      omega
    unfold calculate_trauma
    rw [if_neg hnot, if_neg hne]
  · intro h1
    have hemp : trueRanges (takeLast period data) = [] := by
      apply List.length_eq_zero.mp
      rw [htr, h1]
    unfold calculate_trauma
    rw [if_neg hnot, if_pos hemp]

/-- C7 witness input: two candles. -/
def traumaWitnessData : List Candle :=
  [{ timestamp := 0, open_ := 10, high := 12, low := 9, close := 11, volume := 5 },
   { timestamp := 1, open_ := 11, high := 14, low := 10, close := 13, volume := 6 }]

/-- C7 witness: the theorem applied with traumaPeriod 2 and 1 on a concrete
two-candle window. -/
theorem trauma_is_sma_minus_half_atr_witness :
    calculate_trauma 2 traumaWitnessData =
      traumaSMA 2 traumaWitnessData - traumaATR 2 traumaWitnessData * (1/2) ∧
    calculate_trauma 1 traumaWitnessData = traumaSMA 1 traumaWitnessData :=
  ⟨(trauma_is_sma_minus_half_atr 2 traumaWitnessData (by norm_num) (by decide)).1 (by norm_num),
   (trauma_is_sma_minus_half_atr 1 traumaWitnessData (by norm_num) (by decide)).2 rfl⟩

/-- C6: with a window of at least lookback ≥ 2 candles, whenever the last
candle's volume is at most 1.2 times the mean volume of the all-but-last
candles of the window, detect_breakout reports no breakout, whatever the
close does relative to resistance and support. -/
theorem breakout_none_without_volume_surge (lookback : ℕ) (data : List Candle)
    (cur : Candle) (h2 : 2 ≤ lookback) (hl : lookback ≤ data.length)
    (hcur : data.getLast? = some cur)
    (hvol : cur.volume ≤ trailingAvgVolume lookback data * (6/5)) :
    detect_breakout lookback data = 0 := by
  have hnot : ¬ data.length < lookback := by omega
  have hvlen : ((takeLast lookback data).map Candle.volume).length = lookback := by
    rw [List.length_map, length_takeLast]; omega
  have h1lt : 1 < ((takeLast lookback data).map Candle.volume).length := by omega
  unfold trailingAvgVolume at hvol
  have hv : ¬ (cur.volume >
      listMean (((takeLast lookback data).map Candle.volume).dropLast) * (6/5)) :=
    not_lt.mpr hvol
  simp only [detect_breakout, hcur]
  rw [if_neg hnot, if_pos h1lt, if_neg (fun hc => hv hc.2), if_neg (fun hc => hv hc.2)]

/-- C6 witness input: two candles of equal volume, the second closing far
above the first candle's high. -/
def breakoutWitnessData : List Candle :=
  [{ timestamp := 0, open_ := 10, high := 12, low := 9, close := 10, volume := 10 },
   { timestamp := 1, open_ := 10, high := 11, low := 9, close := 100, volume := 10 }]

/-- C6 witness: price breaks resistance but volume shows no surge, so no
breakout is reported. -/
theorem breakout_none_without_volume_surge_witness :
    detect_breakout 2 breakoutWitnessData = 0 :=
  breakout_none_without_volume_surge 2 breakoutWitnessData
    { timestamp := 1, open_ := 10, high := 11, low := 9, close := 100, volume := 10 }
    (by norm_num) (by decide) (of_decide_eq_true (by with_unfolding_all rfl))
    (of_decide_eq_true (by with_unfolding_all rfl))

/-- C10: on fewer than rsiPeriod + 1 closes calculate_rsi returns the
neutral 50 instead of failing, and the not-enough-data status is produced by
generate_signal exactly when the window holds fewer than
max(rsiPeriod, traumaPeriod) + 1 candles. -/
theorem rsi_neutral_default_and_underflow_status (period : ℕ) (prices : List ℚ)
    (s : StrategyState) (now : ℚ) (h : prices.length < period + 1) :
    calculate_rsi period prices = 50 ∧
    ((generate_signal s now).1.2 = Reason.notEnoughData ↔
      s.ohlc_data.length < max s.rsi_period s.trauma_period + 1) := by
  constructor
  · unfold calculate_rsi
    rw [if_pos h]
  · by_cases hlen : s.ohlc_data.length < max s.rsi_period s.trauma_period + 1
    · simp [generate_signal, hlen]
    · apply iff_of_false _ hlen
      simp only [generate_signal, if_neg hlen]
      split_ifs <;> simp

/-- C10 witness: rsiPeriod = 14 on a three-close window, and the default
engine with an empty window reports not-enough-data. -/
theorem rsi_neutral_default_and_underflow_status_witness :
    calculate_rsi 14 [100, 101, 102] = 50 ∧
    ((generate_signal initStrategy 0).1.2 = Reason.notEnoughData ↔
      initStrategy.ohlc_data.length < max initStrategy.rsi_period initStrategy.trauma_period + 1) :=
  rsi_neutral_default_and_underflow_status 14 [100, 101, 102] initStrategy 0 (by decide)

/-- C5: when order placement fails (gateway result none) handle_signal
leaves the ledger untouched: the position, the trade history and the running
total pnl are exactly as before, for every signal kind. -/
theorem gateway_failure_leaves_state_unchanged (b : BotState) (sig : Sig)
    (reason : Reason) (price now : ℚ) :
    (handle_signal b sig reason price now none).current_position = b.current_position ∧
    (handle_signal b sig reason price now none).trades = b.trades ∧
    (handle_signal b sig reason price now none).total_pnl = b.total_pnl := by
  unfold handle_signal
  by_cases hdb : debounced b now
  · simp [hdb]
  · simp only [hdb, if_false, Bool.false_eq_true, ite_false]
    cases sig <;> rcases hpos : b.current_position with _ | p <;>
      simp [open_long_position, open_short_position, close_position, hpos]

/-- C3: handle_signal only walks FLAT→LONG→FLAT or FLAT→SHORT→FLAT.  An
entry while a position is open is a no-op, an exit while flat or against a
position of the other side is a no-op, and any change of position state is
either an open from flat or a close to flat, so two opens cannot happen
without an intervening close. -/
theorem ledger_single_position_walk (b : BotState) (sig : Sig) (reason : Reason)
    (price now : ℚ) (gw : Option ℕ) :
    ((sig = Sig.buy ∨ sig = Sig.sell) → b.current_position.isSome →
      (handle_signal b sig reason price now gw).current_position = b.current_position) ∧
    ((sig = Sig.exitLong ∨ sig = Sig.exitShort) → b.current_position = none →
      (handle_signal b sig reason price now gw).current_position = none) ∧
    (∀ p, b.current_position = some p → sig = Sig.exitLong →
      p.position_type ≠ PositionType.LONG →
      (handle_signal b sig reason price now gw).current_position = some p) ∧
    (∀ p, b.current_position = some p → sig = Sig.exitShort →
      p.position_type ≠ PositionType.SHORT →
      (handle_signal b sig reason price now gw).current_position = some p) ∧
    ((handle_signal b sig reason price now gw).current_position ≠ b.current_position →
      (b.current_position = none ∧
        (handle_signal b sig reason price now gw).current_position.isSome) ∨
      (b.current_position.isSome ∧
        (handle_signal b sig reason price now gw).current_position = none)) := by
  unfold handle_signal
  by_cases hdb : debounced b now
  · simp [hdb]
    exact ⟨fun p hp _ _ => hp, fun p hp _ _ => hp⟩
  · simp only [hdb, if_false, Bool.false_eq_true, ite_false]
    cases sig <;> rcases hpos : b.current_position with _ | p <;>
      rcases gw with _ | txid <;>
      simp [open_long_position, open_short_position, close_position, hpos] <;>
      by_cases hpt : p.position_type = PositionType.LONG <;>
      by_cases hps : p.position_type = PositionType.SHORT <;>
      simp [hpt, hps, hpos]

/-- C3 witness: a buy on the flat initial bot changes the position, and the
walk conjunct classifies the change as an open from flat. -/
theorem ledger_single_position_walk_witness :
    (initBot.current_position = none ∧
      (handle_signal initBot Sig.buy Reason.bullishBreakout 100 0 (some 0)).current_position.isSome) ∨
    (initBot.current_position.isSome ∧
      (handle_signal initBot Sig.buy Reason.bullishBreakout 100 0 (some 0)).current_position = none) :=
  (ledger_single_position_walk initBot Sig.buy Reason.bullishBreakout 100 0 (some 0)).2.2.2.2
    (of_decide_eq_true (by with_unfolding_all rfl))

theorem close_position_pnl_invariant (b : BotState) (price now : ℚ) (reason : Reason)
    (gw : Option ℕ) (h : b.total_pnl = (b.trades.map Trade.pnl).sum) :
    (close_position b price now reason gw).total_pnl =
      ((close_position b price now reason gw).trades.map Trade.pnl).sum := by
  unfold close_position
  rcases hpos : b.current_position with _ | p <;> rcases gw with _ | txid <;>
    simp [hpos, List.map_append, h]

theorem handle_signal_pnl_invariant (b : BotState) (sig : Sig) (reason : Reason)
    (price now : ℚ) (gw : Option ℕ)
    (h : b.total_pnl = (b.trades.map Trade.pnl).sum) :
    (handle_signal b sig reason price now gw).total_pnl =
      ((handle_signal b sig reason price now gw).trades.map Trade.pnl).sum := by
  unfold handle_signal
  by_cases hdb : debounced b now
  · simp [hdb, h]
  · simp only [hdb, if_false, Bool.false_eq_true, ite_false]
    cases sig <;> rcases hpos : b.current_position with _ | p <;>
      rcases hgw : gw with _ | txid <;>
      simp [open_long_position, open_short_position, hpos, h] <;>
      by_cases hpt : p.position_type = PositionType.LONG <;>
      by_cases hps : p.position_type = PositionType.SHORT <;>
      simp [hpt, hps, h] <;>
      exact hgw ▸ close_position_pnl_invariant b price now reason gw h

theorem websocket_callback_pnl_invariant (b : BotState) (d : OhlcMsg) (now : ℚ)
    (gw : Option ℕ) (h : b.total_pnl = (b.trades.map Trade.pnl).sum) :
    (websocket_callback b d now gw).total_pnl =
      ((websocket_callback b d now gw).trades.map Trade.pnl).sum := by
  unfold websocket_callback
  rcases hsig : (generate_signal (add_ohlc_data b.strategy d) now).1.1 with _ | sig <;>
    simp only [hsig]
  · exact h
  · exact handle_signal_pnl_invariant _ sig _ d.close now gw h

theorem runFeed_pnl_invariant :
    ∀ (feed : List (OhlcMsg × ℚ × Option ℕ)) (b : BotState),
      b.total_pnl = (b.trades.map Trade.pnl).sum →
      (runFeed b feed).total_pnl = ((runFeed b feed).trades.map Trade.pnl).sum
  | [], _, h => h
  | (d, now, gw) :: rest, b, h =>
      runFeed_pnl_invariant rest _ (websocket_callback_pnl_invariant b d now gw h)

/-- C4: closing a LONG opened at entry_price with quantity at exit price
records pnl = (exit - entry) * quantity, a SHORT records
pnl = (entry - exit) * quantity, and after any feed the running total pnl is
the sum of the individual trade pnl values. -/
theorem pnl_round_trip_and_total (b : BotState) (p : Position) (price now : ℚ)
    (reason : Reason) (txid : ℕ) (feed : List (OhlcMsg × ℚ × Option ℕ))
    (hp : b.current_position = some p)
    (hdbn : b.strategy.last_signal_time = none)
    (hsum : b.total_pnl = (b.trades.map Trade.pnl).sum) :
    (p.position_type = PositionType.LONG →
      (handle_signal b Sig.exitLong reason price now (some txid)).trades.map Trade.pnl =
        b.trades.map Trade.pnl ++ [(price - p.entry_price) * p.quantity] ∧
      (handle_signal b Sig.exitLong reason price now (some txid)).total_pnl =
        b.total_pnl + (price - p.entry_price) * p.quantity) ∧
    (p.position_type = PositionType.SHORT →
      (handle_signal b Sig.exitShort reason price now (some txid)).trades.map Trade.pnl =
        b.trades.map Trade.pnl ++ [(p.entry_price - price) * p.quantity] ∧
      (handle_signal b Sig.exitShort reason price now (some txid)).total_pnl =
        b.total_pnl + (p.entry_price - price) * p.quantity) ∧
    (runFeed b feed).total_pnl = ((runFeed b feed).trades.map Trade.pnl).sum := by
  have hndb : debounced b now = false := by
    unfold debounced
    rw [hdbn]
  refine ⟨?_, ?_, runFeed_pnl_invariant feed b hsum⟩
  · intro hLong
    unfold handle_signal
    simp [hndb, hp, close_position, hLong, List.map_append]
  · intro hShort
    have hnl : p.position_type ≠ PositionType.LONG := by
      rw [hShort]
      exact fun hc => PositionType.noConfusion hc
    unfold handle_signal
    simp [hndb, hp, close_position, hShort, hnl, List.map_append]

/-- C4 witness position: a LONG of quantity 2 entered at 100. -/
def pnlWitnessPos : Position :=
  { entry_time := 0, entry_price := 100, position_type := PositionType.LONG,
    quantity := 2, order_id := 7 }

/-- C4 witness input: a bot holding that LONG. -/
def pnlWitnessBot : BotState :=
  { initBot with current_position := some pnlWitnessPos }

/-- C4 witness: the theorem applied to the concrete LONG holder at exit
price 110, with the LONG hypothesis discharged, plus the running-total
conjunct for the empty subsequent feed. -/
theorem pnl_round_trip_and_total_witness :
    ((handle_signal pnlWitnessBot Sig.exitLong Reason.rsiOverbought 110 400 (some 9)).trades.map Trade.pnl =
        pnlWitnessBot.trades.map Trade.pnl ++
          [((110 : ℚ) - pnlWitnessPos.entry_price) * pnlWitnessPos.quantity] ∧
      (handle_signal pnlWitnessBot Sig.exitLong Reason.rsiOverbought 110 400 (some 9)).total_pnl =
        pnlWitnessBot.total_pnl + ((110 : ℚ) - pnlWitnessPos.entry_price) * pnlWitnessPos.quantity) ∧
    (runFeed pnlWitnessBot []).total_pnl = ((runFeed pnlWitnessBot []).trades.map Trade.pnl).sum :=
  ⟨(pnl_round_trip_and_total pnlWitnessBot pnlWitnessPos 110 400 Reason.rsiOverbought 9 []
      rfl rfl rfl).1 rfl,
   (pnl_round_trip_and_total pnlWitnessBot pnlWitnessPos 110 400 Reason.rsiOverbought 9 []
      rfl rfl rfl).2.2⟩

/-- C8: with no closed trades the performance summary is the no-trades
message (none here) and no division happens; with at least one trade the
reported win rate is the count of positive-pnl trades over the trade count
(scaled to a percentage), with a provably nonzero denominator. -/
theorem win_rate_never_divides_by_zero (b : BotState) :
    (get_performance_summary b = none ↔ b.trades = []) ∧
    (∀ s, get_performance_summary b = some s →
      b.trades.length ≠ 0 ∧
      s.total_trades = b.trades.length ∧
      s.profitable_trades = (b.trades.filter fun t => decide (0 < t.pnl)).length ∧
      s.win_rate_pct =
        ((b.trades.filter fun t => decide (0 < t.pnl)).length : ℚ) /
          (b.trades.length : ℚ) * 100) := by
  unfold get_performance_summary
  by_cases he : b.trades = []
  · simp [he]
  · rw [if_neg he]
    refine ⟨iff_of_false (by simp) he, ?_⟩
    intro s hs
    injection hs with hs
    subst hs
    exact ⟨fun hc => he (List.length_eq_zero.mp hc), rfl, rfl, rfl⟩

/-- C8 witness input: one winning LONG trade with pnl 20. -/
def perfWitnessBot : BotState :=
  { initBot with
    trades := [{ entry_time := 0, exit_time := 1, entry_price := 100, exit_price := 110,
                 position_type := PositionType.LONG, quantity := 2, pnl := 20,
                 reason := Reason.rsiOverbought, entry_order_id := 1, exit_order_id := 2 }],
    total_pnl := 20 }

/-- C8 witness summary: the dict the code builds for that one trade. -/
def perfWitnessSummary : PerfSummary :=
  { total_trades := 1, profitable_trades := 1, losing_trades := 0, win_rate_pct := 100,
    total_pnl := 20, average_pnl := 20, best_trade := 20, worst_trade := 20 }

/-- C8 witness: the theorem applied to the one-trade bot, with the
some-summary hypothesis discharged on the concrete summary. -/
theorem win_rate_never_divides_by_zero_witness :
    perfWitnessBot.trades.length ≠ 0 ∧
    perfWitnessSummary.total_trades = perfWitnessBot.trades.length ∧
    perfWitnessSummary.profitable_trades =
      (perfWitnessBot.trades.filter fun t => decide (0 < t.pnl)).length ∧
    perfWitnessSummary.win_rate_pct =
      ((perfWitnessBot.trades.filter fun t => decide (0 < t.pnl)).length : ℚ) /
        (perfWitnessBot.trades.length : ℚ) * 100 :=
  (win_rate_never_divides_by_zero perfWitnessBot).2 perfWitnessSummary
    (of_decide_eq_true (by with_unfolding_all rfl))

/-- C9 first arrival at timestamp 5. -/
def dupMsg1 : OhlcMsg := { time := 5, open_ := 1, high := 2, low := 1, close := 2, volume := 3 }

/-- C9 second arrival at the same timestamp 5 with different values. -/
def dupMsg2 : OhlcMsg := { time := 5, open_ := 2, high := 3, low := 2, close := 3, volume := 4 }

/-- C9 counterexample: after ingesting two candles with the same timestamp
the window holds both of them (two entries with timestamp 5, the earlier
arrival's close still present), refuting that at most one candle per
timestamp is kept. -/
theorem duplicate_timestamp_both_kept :
    ((add_ohlc_data (add_ohlc_data initStrategy dupMsg1) dupMsg2).ohlc_data.countP
        fun c => decide (c.timestamp = 5)) = 2 ∧
    (add_ohlc_data (add_ohlc_data initStrategy dupMsg1) dupMsg2).ohlc_data.map Candle.close =
      [2, 3] :=
  of_decide_eq_true (by with_unfolding_all rfl)

/-- C9 (amended): add_ohlc_data appends every arriving candle, duplicate
timestamp or not; below capacity the window is the old window with the new
candle last, so duplicate-timestamp candles coexist and only capacity
overflow evicts (from the oldest end). -/
theorem ingest_appends_duplicate_timestamps (s : StrategyState) (d : OhlcMsg)
    (h : s.ohlc_data.length < s.lookback_period) :
    (add_ohlc_data s d).ohlc_data = s.ohlc_data ++ [candleOfMsg d] := by
  have hc : ¬ s.lookback_period < (s.ohlc_data ++ [candleOfMsg d]).length := by
    rw [List.length_append]
    simp
    omega
  simp only [add_ohlc_data]
  rw [if_neg hc]

/-- C9 witness: ingesting the duplicate-timestamp message appends it after
the first one. -/
theorem ingest_appends_duplicate_timestamps_witness :
    (add_ohlc_data (add_ohlc_data initStrategy dupMsg1) dupMsg2).ohlc_data =
      (add_ohlc_data initStrategy dupMsg1).ohlc_data ++ [candleOfMsg dupMsg2] :=
  ingest_appends_duplicate_timestamps (add_ohlc_data initStrategy dupMsg1) dupMsg2 (by decide)

/-- C1 warmup messages: twenty identical candles to fill the window. -/
def warmupMsg (i : ℕ) : OhlcMsg :=
  { time := i, open_ := 100, high := 100, low := 100, close := 100, volume := 10 }

/-- C1 first qualifying entry condition: close 200 above trauma, breaking
the prior high of 100 on triple the trailing average volume. -/
def entryMsg1 : OhlcMsg :=
  { time := 20, open_ := 100, high := 200, low := 100, close := 200, volume := 30 }

/-- C1 second qualifying entry condition, 100 seconds later. -/
def entryMsg2 : OhlcMsg :=
  { time := 21, open_ := 200, high := 400, low := 200, close := 400, volume := 100 }

/-- C1 feed: twenty warmup candles, then the two qualifying entry
conditions at clock instants 1000 and 1100 (100 seconds apart), the order
gateway succeeding throughout. -/
def debounceFeed : List (OhlcMsg × ℚ × Option ℕ) :=
  ((List.range 20).map fun i => (warmupMsg i, (i : ℚ), some 0)) ++
  [(entryMsg1, 1000, some 1), (entryMsg2, 1100, some 2)]

set_option maxRecDepth 100000

/-- C1: on this feed both qualifying conditions do produce a BUY from
generate_signal, yet the pipeline accepts neither entry: generate_signal
stores last_signal_time := now before handle_signal compares now against it,
so every entry is debounced against its own timestamp.  The run ends with no
position ever opened and no trade, not with one accepted entry as the claim
states. -/
theorem debounce_suppresses_every_entry :
    ((generate_signal (add_ohlc_data (runFeed initBot (debounceFeed.take 20)).strategy entryMsg1)
        1000).1.1 = some Sig.buy) ∧
    ((generate_signal (add_ohlc_data (runFeed initBot (debounceFeed.take 21)).strategy entryMsg2)
        1100).1.1 = some Sig.buy) ∧
    (runFeed initBot debounceFeed).trades = [] ∧
    (runFeed initBot debounceFeed).current_position = none :=
  of_decide_eq_true (by with_unfolding_all rfl)

end TradingBot
